import Mathlib

/-!
# Verification of the inventory data-integrity and persistence layer

Shallow embedding of the Go repository `lbisceglia/shopify`:

* `src/models/items.go` — the `Item` record and its validators;
* `src/db/db.go` — the in-memory `MockDB` store (two indices, by SKU and
  by ID) and the PostgreSQL-backed `SQLDB` store's control flow.

Modelling conventions:

* Go strings are Lean `String`s (sequences of runes, matching Go's
  `for range` iteration); Go's `len` on a string counts UTF-8 *bytes* and
  is modelled by `golen`.
* Go `*float64` / `*int` optional fields become `Option Int`
  (the source only ever compares these values against `0`, so an ordered
  integer-valued model preserves every behaviour the claims exercise).
* `time.Time` is modelled as `Nat`. The mock store hard-codes creation at
  2000-01-01 (modelled as `0`) and advances `LastUpdated` by one day per
  update (modelled as `+ 1`), cf. `MockDB.CreationTime`/`MockDB.UpdateTime`.
* The two Go maps hold *pointers* to the same `Item` record; an in-place
  mutation of a record is modelled by writing the updated value at the
  record's key in each index.
* Fallible operations return their `(int, error)` pair as
  `Nat × Option String`, with the error message built as in the source.
-/

namespace Shopify

/-! ## Go string primitives -/

/-- UTF-8 byte length of one rune, as Go's `len` counts it. -/
def utf8Bytes (c : Char) : Nat :=
  if c.val < 0x80 then 1
  else if c.val < 0x800 then 2
  else if c.val < 0x10000 then 3
  else 4

/-- Go `len(s)` on a string: the number of UTF-8 bytes. -/
def golen (s : String) : Nat :=
  (s.data.map utf8Bytes).sum

/-- Go `unicode.IsLetter`, exact on the Basic Latin and Latin-1 blocks
(code points below `0x100`, the only range any theorem in this file
evaluates it at); the letters there are `A`–`Z`, `a`–`z`, `ª`, `µ`, `º`,
`À`–`Ö`, `Ø`–`ö` and `ø`–`ÿ` (Unicode category L). -/
def goIsLetter (c : Char) : Bool :=
  (0x41 ≤ c.val && c.val ≤ 0x5A) || (0x61 ≤ c.val && c.val ≤ 0x7A) ||
  c.val == 0xAA || c.val == 0xB5 || c.val == 0xBA ||
  (0xC0 ≤ c.val && c.val ≤ 0xD6) || (0xD8 ≤ c.val && c.val ≤ 0xF6) ||
  (0xF8 ≤ c.val && c.val ≤ 0xFF)

/-- Go `unicode.IsDigit`, exact on the Basic Latin and Latin-1 blocks
(the only decimal digits there are `0`–`9`). -/
def goIsDigit (c : Char) : Bool :=
  0x30 ≤ c.val && c.val ≤ 0x39

/-- Go `unicode.IsSpace`, exact on the Basic Latin and Latin-1 blocks:
`\t`, `\n`, `\v`, `\f`, `\r`, space, NEL (U+0085) and NBSP (U+00A0). -/
def goIsSpace (c : Char) : Bool :=
  c.val == 0x09 || c.val == 0x0A || c.val == 0x0B || c.val == 0x0C ||
  c.val == 0x0D || c.val == 0x20 || c.val == 0x85 || c.val == 0xA0

/-- Go `strings.TrimSpace`: drop leading and trailing whitespace runes. -/
def TrimSpace (s : String) : String :=
  ⟨((s.data.dropWhile goIsSpace).reverse.dropWhile goIsSpace).reverse⟩

/-! ## Constants (`src/models/items.go`, `net/http`) -/

def SKU_MIN_LEN : Nat := 4
def SKU_MAX_LEN : Nat := 12
def ID_LEN : Nat := 20

def StatusOK : Nat := 200
def StatusCreated : Nat := 201
def StatusNoContent : Nat := 204
def StatusBadRequest : Nat := 400
def StatusNotFound : Nat := 404
def StatusConflict : Nat := 409
def StatusInternalServerError : Nat := 500

/-! ## The Item record (`src/models/items.go`) -/

/-- Model of `models.Item`. `DateAdded`/`LastUpdated` are the `*time.Time` fields
(absent = Go `nil`); `PriceInCAD`/`Quantity` are the nilable numeric
fields. -/
structure Item where
  ID : String
  SKU : String
  Name : String
  Description : String
  PriceInCAD : Option Int
  Quantity : Option Int
  DateAdded : Option Nat
  LastUpdated : Option Nat
deriving DecidableEq, Repr

/-- The Go zero value `models.Item{}`. -/
def Item.zero : Item :=
  ⟨"", "", "", "", none, none, none, none⟩

/-- Model of `(id ID) isValid()`: exactly 20 bytes, every rune in `[a-v0-9]`. -/
def ID.isValid (id : String) : Nat × Option String :=
  if golen id ≠ ID_LEN then
    (StatusBadRequest, some "id must be 20 characters in length")
  else if id.data.all (fun c => ('a' ≤ c && c ≤ 'v') || ('0' ≤ c && c ≤ '9')) then
    (0, none)
  else
    (StatusBadRequest, some "id may only contain [a-v 0-9]")

/-- Model of `(sku SKU) isValid()`: 4–12 bytes, every rune a Unicode letter or
digit, `-`, or `_`. -/
def SKU.isValid (sku : String) : Nat × Option String :=
  if golen sku < SKU_MIN_LEN || golen sku > SKU_MAX_LEN then
    (StatusBadRequest, some "SKU must be between 4 and 12 characters in length")
  else if sku.data.all (fun c => goIsLetter c || goIsDigit c || c == '-' || c == '_') then
    (0, none)
  else
    (StatusBadRequest, some "SKU may only contain [a-z A-Z 0-9 _ -]")

/-- Model of `Item.GetID`. -/
def Item.GetID (item : Item) : String := item.ID

/-- Model of `Item.IdIsPresent`: the ID field counts as present iff it is exactly
20 bytes long (the length check only — not character validity). -/
def Item.IdIsPresent (item : Item) : Bool :=
  golen item.ID == ID_LEN

/-- Model of `Item.SetID`: sets the id only when not yet present and the given id
is well-formed; otherwise leaves the item unchanged and returns an
error. -/
def Item.SetID (item : Item) (id : String) : Item × Option String :=
  if item.IdIsPresent = false then
    match (ID.isValid id).2 with
    | some err => (item, some err)
    | none => ({ item with ID := id }, none)
  else
    (item, some "item id has already been set")

/-- Model of `Item.ValidateID`. -/
def Item.ValidateID (item : Item) : Nat × Option String :=
  ID.isValid item.ID

/-- Model of `Item.ValidateSKU`. -/
def Item.ValidateSKU (item : Item) : Nat × Option String :=
  SKU.isValid item.SKU

/-- Model of `Item.ValidateName`: trims the name in place, then rejects if empty. -/
def Item.ValidateName (item : Item) : Item × Nat × Option String :=
  let item := { item with Name := TrimSpace item.Name }
  if golen item.Name == 0 then
    (item, StatusBadRequest, some "name cannot be whitespace or empty")
  else
    (item, 0, none)

/-- Model of `Item.ValidateDescription`: trims the description in place; never
fails. -/
def Item.ValidateDescription (item : Item) : Item × Nat × Option String :=
  ({ item with Description := TrimSpace item.Description }, 0, none)

/-- Model of `Item.ValidatePrice`: rejects a present negative price; no mutation. -/
def Item.ValidatePrice (item : Item) : Item × Nat × Option String :=
  match item.PriceInCAD with
  | some price =>
    if price < 0 then (item, StatusBadRequest, some "price_CAD cannot be negative")
    else (item, 0, none)
  | none => (item, 0, none)

/-- Model of `Item.ValidateQuantity`: rejects a present negative quantity; fills
`0` when absent. -/
def Item.ValidateQuantity (item : Item) : Item × Nat × Option String :=
  match item.Quantity with
  | some qty =>
    if qty < 0 then (item, StatusBadRequest, some "quantity cannot be negative")
    else (item, 0, none)
  | none => ({ item with Quantity := some 0 }, 0, none)

/-- Model of `Item.ValidateItem`: sku → name → description → price → quantity,
short-circuiting on the first failure; mutations made by the successful
prefix of checks persist (the item is passed by pointer in the source). -/
def Item.ValidateItem (item : Item) : Item × Nat × Option String :=
  match (item.ValidateSKU).2 with
  | some e => (item, (item.ValidateSKU).1, some e)
  | none =>
    let r1 := item.ValidateName
    match r1.2.2 with
    | some e => (r1.1, r1.2.1, some e)
    | none =>
      let r2 := r1.1.ValidateDescription
      match r2.2.2 with
      | some e => (r2.1, r2.2.1, some e)
      | none =>
        let r3 := r2.1.ValidatePrice
        match r3.2.2 with
        | some e => (r3.1, r3.2.1, some e)
        | none =>
          let r4 := r3.1.ValidateQuantity
          match r4.2.2 with
          | some e => (r4.1, r4.2.1, some e)
          | none => (r4.1, 0, none)

/-! ## Go map primitives

The two `MockDB` indices are Go maps with `string`-like keys. A Go map
holds at most one binding per key; we model it as an association list
where insertion replaces any previous binding. -/

/-- Go map read `m[k]` (the `v, ok := m[k]` form). -/
def mlookup (m : List (String × Item)) (k : String) : Option Item :=
  (m.find? (fun p => p.1 == k)).map (fun p => p.2)

/-- Go map write `m[k] = v`. -/
def minsert (m : List (String × Item)) (k : String) (v : Item) :
    List (String × Item) :=
  (k, v) :: m.filter (fun p => !(p.1 == k))

/-- Go `delete(m, k)`. -/
def merase (m : List (String × Item)) (k : String) : List (String × Item) :=
  m.filter (fun p => !(p.1 == k))

/-! ## The in-memory store (`MockDB`, `src/db/db.go`) -/

/-- Model of `db.MockDB`: the two indices, sku→item and id→item. -/
structure MockDB where
  dbBySKU : List (String × Item)
  dbByID : List (String × Item)
deriving DecidableEq, Repr

/-- Model of `db.NewMockDB()`: both indices empty. -/
def NewMockDB : MockDB := ⟨[], []⟩

/-- Model of `MockDB.CreationTime`: the hard-coded mock creation instant
2000-01-01T00:00:00Z, modelled as `0`. -/
def MockDB.CreationTime : Nat := 0

/-- Model of `MockDB.UpdateTime`: sets `LastUpdated` to the creation instant when
unset, otherwise advances it by one day (`AddDate(0, 0, 1)`, modelled as
`+ 1`). -/
def MockDB.UpdateTime (item : Item) : Item :=
  match item.LastUpdated with
  | none => { item with LastUpdated := some MockDB.CreationTime }
  | some t => { item with LastUpdated := some (t + 1) }

/-- Result of `MockDB.CreateItem`: the post-state, the (mutated) argument
item, and the `(int, error)` pair. -/
structure CreateResult where
  db : MockDB
  item : Item
  code : Nat
  err : Option String
deriving DecidableEq, Repr

/-- Model of `MockDB.CreateItem`. Here `newId` is the value of `models.NewID()` (the
freshly generated xid); the error returned by `SetID` is discarded, as in
the source. On success the completed item is stored in both indices. -/
def MockDB.CreateItem (db : MockDB) (item : Item) (newId : String) :
    CreateResult :=
  if (mlookup db.dbBySKU item.SKU).isSome then
    ⟨db, item, StatusConflict, some ("there is already an item with SKU " ++ item.SKU)⟩
  else
    let item := (item.SetID newId).1
    let t := MockDB.CreationTime
    let item := { item with DateAdded := some t, LastUpdated := some t }
    ⟨⟨minsert db.dbBySKU item.SKU item, minsert db.dbByID item.GetID item⟩,
      item, StatusCreated, none⟩

/-- Result of `MockDB.UpdateItem`/`MockDB.DeleteItem`: post-state and the
`(int, error)` pair. -/
structure UpdateResult where
  db : MockDB
  code : Nat
  err : Option String
deriving DecidableEq, Repr

/-- Model of `MockDB.UpdateItem`: full replace of the editable fields of the item
stored under `id`. A changed sku must be absent from the sku index; the
sku index is re-keyed. Both indices alias the same record in the source,
so the mutated record is written back at its key in each. -/
def MockDB.UpdateItem (db : MockDB) (id : String) (item : Item) :
    UpdateResult :=
  match mlookup db.dbByID id with
  | none => ⟨db, StatusNotFound, some ("there is no item with id " ++ item.GetID)⟩
  | some v =>
    if v.SKU == item.SKU then
      let v := { v with Name := item.Name, Description := item.Description,
                        PriceInCAD := item.PriceInCAD, Quantity := item.Quantity }
      let v := MockDB.UpdateTime v
      ⟨⟨minsert db.dbBySKU v.SKU v, minsert db.dbByID id v⟩, StatusNoContent, none⟩
    else
      if (mlookup db.dbBySKU item.SKU).isSome then
        ⟨db, StatusConflict, some ("there is already an item with SKU " ++ item.SKU)⟩
      else
        let oldSKU := v.SKU
        let v := { v with SKU := item.SKU, Name := item.Name,
                          Description := item.Description,
                          PriceInCAD := item.PriceInCAD, Quantity := item.Quantity }
        let v := MockDB.UpdateTime v
        ⟨⟨minsert (merase db.dbBySKU oldSKU) v.SKU v, minsert db.dbByID id v⟩,
          StatusNoContent, none⟩

/-- Model of `MockDB.DeleteItem`: hard delete from both indices. -/
def MockDB.DeleteItem (db : MockDB) (id : String) : UpdateResult :=
  match mlookup db.dbByID id with
  | none => ⟨db, StatusNotFound, some ("there is no item with ID " ++ id)⟩
  | some v => ⟨⟨merase db.dbBySKU v.SKU, merase db.dbByID id⟩, StatusNoContent, none⟩

/-- Result of `MockDB.GetItem`. -/
structure GetResult where
  item : Item
  code : Nat
  err : Option String
deriving DecidableEq, Repr

/-- Model of `MockDB.GetItem`. -/
def MockDB.GetItem (db : MockDB) (id : String) : GetResult :=
  match mlookup db.dbByID id with
  | none => ⟨Item.zero, StatusNotFound, some ("there is no item with ID " ++ id)⟩
  | some v => ⟨v, StatusOK, none⟩

/-- Model of `MockDB.GetItems`: all items of the sku index; never fails. -/
def MockDB.GetItems (db : MockDB) : List Item × Nat × Option String :=
  (db.dbBySKU.map (fun p => p.2), StatusOK, none)

/-! ## The relational store's delete (`SQLDB.DeleteItem`, `src/db/db.go`)

The database round-trips are the only effects; they are shallowly
embedded as the results the `database/sql` driver hands back:
`db.Exec` yields either an error or a `sql.Result`, whose
`RowsAffected()` yields either an error or a row count. -/

/-- Model of `sql.Result` as `SQLDB.DeleteItem` consumes it. -/
structure SQLResult where
  rowsAffected : Except String Int
deriving Repr

/-- Model of `SQLDB.DeleteItem`, control flow verbatim from the source:
only the path `Exec` succeeded ∧ `RowsAffected` succeeded ∧ count = 0
returns 404; every other path — including a failed `Exec` — falls
through to `return http.StatusNoContent, nil`. -/
def SQLDB.DeleteItem (exec : Except String SQLResult) (id : String) :
    Nat × Option String :=
  match exec with
  | Except.ok res =>
    match res.rowsAffected with
    | Except.ok count =>
      if count == 0 then (StatusNotFound, some ("there is no item with ID " ++ id))
      else (StatusNoContent, none)
    | Except.error _ => (StatusNoContent, none)
  | Except.error _ => (StatusNoContent, none)

/-! ## Lemmas about the map primitives -/

theorem find_filter_ne (k k' : String) (h : k' ≠ k) :
    ∀ m : List (String × Item),
      List.find? (fun p => p.1 == k') (List.filter (fun p => !(p.1 == k)) m) =
      List.find? (fun p => p.1 == k') m
  | [] => rfl
  | p :: m => by
    by_cases h1 : p.1 = k
    · have hk : (p.1 == k) = true := beq_iff_eq.mpr h1
      have hk' : (p.1 == k') = false := by
        refine beq_eq_false_iff_ne.mpr (fun hc => h ?_)
        rw [← hc, h1]
      simp only [List.filter_cons, hk, Bool.not_true, if_neg, List.find?_cons, hk',
        Bool.false_eq_true, ite_false, cond_false]
      exact find_filter_ne k k' h m
    · have hk : (p.1 == k) = false := beq_eq_false_iff_ne.mpr h1
      by_cases h2 : p.1 = k'
      · have hk' : (p.1 == k') = true := beq_iff_eq.mpr h2
        simp only [List.filter_cons, hk, Bool.not_false, if_pos, List.find?_cons, hk',
          cond_true]
      · have hk' : (p.1 == k') = false := beq_eq_false_iff_ne.mpr h2
        simp only [List.filter_cons, hk, Bool.not_false, if_pos, List.find?_cons, hk',
          cond_false]
        exact find_filter_ne k k' h m

theorem mlookup_minsert_self (m : List (String × Item)) (k : String) (v : Item) :
    mlookup (minsert m k v) k = some v := by
  simp [mlookup, minsert, List.find?_cons]

theorem mlookup_minsert_ne (m : List (String × Item)) (k : String) (v : Item)
    (k' : String) (h : k' ≠ k) : mlookup (minsert m k v) k' = mlookup m k' := by
  have hk : (k == k') = false := beq_eq_false_iff_ne.mpr (fun hc => h hc.symm)
  simp only [mlookup, minsert, List.find?_cons, hk, cond_false]
  rw [find_filter_ne k k' h m]

theorem mlookup_merase_self (m : List (String × Item)) (k : String) :
    mlookup (merase m k) k = none := by
  have : List.find? (fun p => p.1 == k) (merase m k) = none := by
    rw [List.find?_eq_none]
    intro p hp
    have := (List.mem_filter.mp hp).2
    simpa using this
  simp [mlookup, this]

theorem mlookup_merase_ne (m : List (String × Item)) (k k' : String) (h : k' ≠ k) :
    mlookup (merase m k) k' = mlookup m k' := by
  simp only [mlookup, merase]
  rw [find_filter_ne k k' h m]

theorem mem_of_mlookup {m : List (String × Item)} {k : String} {it : Item}
    (h : mlookup m k = some it) : (k, it) ∈ m := by
  unfold mlookup at h
  rcases Option.map_eq_some'.mp h with ⟨pr, hpr, hpr2⟩
  have hmem := List.mem_of_find?_eq_some hpr
  have hkey := List.find?_some hpr
  have : pr = (k, it) := by
    rcases pr with ⟨a, b⟩
    simp only at hpr2 hkey
    have ha : a = k := by simpa using hkey
    rw [ha, hpr2]
  rwa [this] at hmem

theorem mlookup_isSome_of_some {m : List (String × Item)} {k : String} {it : Item}
    (h : mlookup m k = some it) : (mlookup m k).isSome = true := by
  rw [h]; rfl

/-! ## Reachable states and the index invariants -/

/-- States of the in-memory store reachable from `NewMockDB` by any
sequence of create, update and delete calls (with arbitrary argument
items and arbitrary generated ids). -/
inductive Reachable : MockDB → Prop where
  | empty : Reachable NewMockDB
  | create (db : MockDB) (item : Item) (newId : String) :
      Reachable db → Reachable (db.CreateItem item newId).db
  | update (db : MockDB) (id : String) (item : Item) :
      Reachable db → Reachable (db.UpdateItem id item).db
  | delete (db : MockDB) (id : String) :
      Reachable db → Reachable (db.DeleteItem id).db

/-- The invariant the id index maintains: every item retrievable by id is
stored under its own identifier and is present in the sku index under its
own sku. -/
def IdIndexInv (db : MockDB) : Prop :=
  ∀ id it, mlookup db.dbByID id = some it →
    it.ID = id ∧ mlookup db.dbBySKU it.SKU = some it

/-- The full lockstep property of the two indices: each index stores
every record under its own key, and the two indices hold exactly the same
records. (Decidable; it is the store's advertised state space, but see
`mock_sku_unique_lockstep_cex`: it is *not* preserved by creates that
carry a colliding preset identifier.) -/
def Lockstep (db : MockDB) : Prop :=
  (∀ p ∈ db.dbByID, p.2.ID = p.1 ∧ mlookup db.dbBySKU p.2.SKU = some p.2) ∧
  (∀ p ∈ db.dbBySKU, p.2.SKU = p.1 ∧ mlookup db.dbByID p.2.ID = some p.2)

instance (db : MockDB) : Decidable (Lockstep db) := by
  unfold Lockstep
  exact instDecidableAnd

theorem lockstep_byID {db : MockDB} {id : String} {it : Item}
    (hL : Lockstep db) (h : mlookup db.dbByID id = some it) :
    it.ID = id ∧ mlookup db.dbBySKU it.SKU = some it :=
  hL.1 (id, it) (mem_of_mlookup h)

theorem lockstep_bySKU {db : MockDB} {s : String} {it : Item}
    (hL : Lockstep db) (h : mlookup db.dbBySKU s = some it) :
    it.SKU = s ∧ mlookup db.dbByID it.ID = some it :=
  hL.2 (s, it) (mem_of_mlookup h)

/-! ## Field-preservation helpers -/

theorem SetID_cases (item : Item) (nid : String) :
    (item.SetID nid).1 = item ∨ (item.SetID nid).1 = { item with ID := nid } := by
  unfold Item.SetID
  by_cases h : item.IdIsPresent = false
  · rw [if_pos h]
    cases (ID.isValid nid).2 with
    | some e => exact Or.inl rfl
    | none => exact Or.inr rfl
  · rw [if_neg h]
    exact Or.inl rfl

theorem UpdateTime_fields (item : Item) :
    (MockDB.UpdateTime item).ID = item.ID ∧
    (MockDB.UpdateTime item).SKU = item.SKU ∧
    (MockDB.UpdateTime item).Name = item.Name ∧
    (MockDB.UpdateTime item).Description = item.Description ∧
    (MockDB.UpdateTime item).PriceInCAD = item.PriceInCAD ∧
    (MockDB.UpdateTime item).Quantity = item.Quantity ∧
    (MockDB.UpdateTime item).DateAdded = item.DateAdded := by
  unfold MockDB.UpdateTime
  cases item.LastUpdated <;> exact ⟨rfl, rfl, rfl, rfl, rfl, rfl, rfl⟩

/-! ## Branch equations for the store operations -/

/-- The item as `MockDB.CreateItem` completes it on the success path. -/
def completeItem (item : Item) (nid : String) : Item :=
  { (item.SetID nid).1 with DateAdded := some MockDB.CreationTime,
                            LastUpdated := some MockDB.CreationTime }

theorem CreateItem_conflict (db : MockDB) (item : Item) (nid : String)
    (h : (mlookup db.dbBySKU item.SKU).isSome = true) :
    db.CreateItem item nid =
      ⟨db, item, StatusConflict, some ("there is already an item with SKU " ++ item.SKU)⟩ := by
  unfold MockDB.CreateItem
  rw [if_pos h]

theorem CreateItem_ok (db : MockDB) (item : Item) (nid : String)
    (h : (mlookup db.dbBySKU item.SKU).isSome = false) :
    db.CreateItem item nid =
      ⟨⟨minsert db.dbBySKU (completeItem item nid).SKU (completeItem item nid),
        minsert db.dbByID (completeItem item nid).ID (completeItem item nid)⟩,
        completeItem item nid, StatusCreated, none⟩ := by
  unfold MockDB.CreateItem completeItem
  rw [if_neg (by simp [h])]
  rfl

/-- The full replace of the editable fields that `MockDB.UpdateItem`
performs when the sku is unchanged. -/
def replaceFields (v item : Item) : Item :=
  { v with Name := item.Name, Description := item.Description,
           PriceInCAD := item.PriceInCAD, Quantity := item.Quantity }

/-- The full replace including the sku re-key. -/
def replaceAll (v item : Item) : Item :=
  { v with SKU := item.SKU, Name := item.Name, Description := item.Description,
           PriceInCAD := item.PriceInCAD, Quantity := item.Quantity }

theorem UpdateItem_notfound (db : MockDB) (id : String) (item : Item)
    (h : mlookup db.dbByID id = none) :
    db.UpdateItem id item =
      ⟨db, StatusNotFound, some ("there is no item with id " ++ item.GetID)⟩ := by
  unfold MockDB.UpdateItem
  rw [h]

theorem UpdateItem_same (db : MockDB) (id : String) (item v : Item)
    (hv : mlookup db.dbByID id = some v) (hs : v.SKU = item.SKU) :
    db.UpdateItem id item =
      ⟨⟨minsert db.dbBySKU (MockDB.UpdateTime (replaceFields v item)).SKU
          (MockDB.UpdateTime (replaceFields v item)),
        minsert db.dbByID id (MockDB.UpdateTime (replaceFields v item))⟩,
        StatusNoContent, none⟩ := by
  unfold MockDB.UpdateItem replaceFields
  rw [hv]
  simp only [beq_iff_eq, if_pos hs]

theorem UpdateItem_conflict (db : MockDB) (id : String) (item v : Item)
    (hv : mlookup db.dbByID id = some v) (hs : v.SKU ≠ item.SKU)
    (hdup : (mlookup db.dbBySKU item.SKU).isSome = true) :
    db.UpdateItem id item =
      ⟨db, StatusConflict, some ("there is already an item with SKU " ++ item.SKU)⟩ := by
  unfold MockDB.UpdateItem
  rw [hv]
  simp only [beq_iff_eq, if_neg hs, if_pos hdup]

theorem UpdateItem_newsku (db : MockDB) (id : String) (item v : Item)
    (hv : mlookup db.dbByID id = some v) (hs : v.SKU ≠ item.SKU)
    (hdup : (mlookup db.dbBySKU item.SKU).isSome = false) :
    db.UpdateItem id item =
      ⟨⟨minsert (merase db.dbBySKU v.SKU) (MockDB.UpdateTime (replaceAll v item)).SKU
          (MockDB.UpdateTime (replaceAll v item)),
        minsert db.dbByID id (MockDB.UpdateTime (replaceAll v item))⟩,
        StatusNoContent, none⟩ := by
  unfold MockDB.UpdateItem replaceAll
  rw [hv]
  simp only [beq_iff_eq, if_neg hs]
  rw [if_neg (by simp [hdup])]

theorem DeleteItem_notfound (db : MockDB) (id : String)
    (h : mlookup db.dbByID id = none) :
    db.DeleteItem id = ⟨db, StatusNotFound, some ("there is no item with ID " ++ id)⟩ := by
  unfold MockDB.DeleteItem
  rw [h]

theorem DeleteItem_ok (db : MockDB) (id : String) (v : Item)
    (hv : mlookup db.dbByID id = some v) :
    db.DeleteItem id =
      ⟨⟨merase db.dbBySKU v.SKU, merase db.dbByID id⟩, StatusNoContent, none⟩ := by
  unfold MockDB.DeleteItem
  rw [hv]

theorem GetItem_notfound (db : MockDB) (id : String)
    (h : mlookup db.dbByID id = none) :
    db.GetItem id = ⟨Item.zero, StatusNotFound, some ("there is no item with ID " ++ id)⟩ := by
  unfold MockDB.GetItem
  rw [h]

theorem GetItem_ok (db : MockDB) (id : String) (v : Item)
    (hv : mlookup db.dbByID id = some v) :
    db.GetItem id = ⟨v, StatusOK, none⟩ := by
  unfold MockDB.GetItem
  rw [hv]

theorem completeItem_fields (item : Item) (nid : String) :
    (completeItem item nid).SKU = item.SKU ∧
    (completeItem item nid).Name = item.Name ∧
    (completeItem item nid).Description = item.Description ∧
    (completeItem item nid).PriceInCAD = item.PriceInCAD ∧
    (completeItem item nid).Quantity = item.Quantity ∧
    (completeItem item nid).DateAdded = some MockDB.CreationTime ∧
    (completeItem item nid).LastUpdated = some MockDB.CreationTime := by
  unfold completeItem
  rcases SetID_cases item nid with h | h <;> rw [h] <;>
    exact ⟨rfl, rfl, rfl, rfl, rfl, rfl, rfl⟩

/-! ## Preservation of the id-index invariant -/

theorem IdIndexInv_empty : IdIndexInv NewMockDB := by
  intro id it h
  simp [NewMockDB, mlookup] at h

theorem IdIndexInv_create (db : MockDB) (item : Item) (nid : String)
    (hI : IdIndexInv db) : IdIndexInv (db.CreateItem item nid).db := by
  by_cases hsku : (mlookup db.dbBySKU item.SKU).isSome = true
  · rw [CreateItem_conflict db item nid hsku]
    exact hI
  · have hsku' : (mlookup db.dbBySKU item.SKU).isSome = false := by
      simpa using hsku
    rw [CreateItem_ok db item nid hsku']
    intro id it h
    by_cases hid : id = (completeItem item nid).ID
    · subst hid
      rw [mlookup_minsert_self] at h
      injection h with h
      subst h
      exact ⟨rfl, mlookup_minsert_self _ _ _⟩
    · rw [mlookup_minsert_ne _ _ _ _ hid] at h
      obtain ⟨h1, h2⟩ := hI id it h
      refine ⟨h1, ?_⟩
      have hne : it.SKU ≠ (completeItem item nid).SKU := by
        intro hc
        rw [(completeItem_fields item nid).1] at hc
        rw [hc] at h2
        rw [h2] at hsku'
        simp at hsku'
      rw [mlookup_minsert_ne _ _ _ _ hne]
      exact h2

theorem IdIndexInv_update (db : MockDB) (id0 : String) (item : Item)
    (hI : IdIndexInv db) : IdIndexInv (db.UpdateItem id0 item).db := by
  cases hv : mlookup db.dbByID id0 with
  | none =>
    rw [UpdateItem_notfound db id0 item hv]
    exact hI
  | some v =>
    obtain ⟨hvID, hvSKU⟩ := hI id0 v hv
    by_cases hs : v.SKU = item.SKU
    · rw [UpdateItem_same db id0 item v hv hs]
      intro id it h
      have hwID : (MockDB.UpdateTime (replaceFields v item)).ID = v.ID :=
        (UpdateTime_fields (replaceFields v item)).1
      have hwSKU : (MockDB.UpdateTime (replaceFields v item)).SKU = v.SKU :=
        (UpdateTime_fields (replaceFields v item)).2.1
      by_cases hid : id = id0
      · subst hid
        rw [mlookup_minsert_self] at h
        injection h with h
        subst h
        exact ⟨hwID.trans hvID, mlookup_minsert_self _ _ _⟩
      · rw [mlookup_minsert_ne _ _ _ _ hid] at h
        obtain ⟨h1, h2⟩ := hI id it h
        refine ⟨h1, ?_⟩
        have hne : it.SKU ≠ (MockDB.UpdateTime (replaceFields v item)).SKU := by
          intro hc
          rw [hwSKU] at hc
          rw [hc] at h2
          rw [hvSKU] at h2
          injection h2 with h2
          exact hid (by rw [← h1, ← h2, hvID])
        rw [mlookup_minsert_ne _ _ _ _ hne]
        exact h2
    · by_cases hdup : (mlookup db.dbBySKU item.SKU).isSome = true
      · rw [UpdateItem_conflict db id0 item v hv hs hdup]
        exact hI
      · have hdup' : (mlookup db.dbBySKU item.SKU).isSome = false := by
          simpa using hdup
        rw [UpdateItem_newsku db id0 item v hv hs hdup']
        intro id it h
        have hwID : (MockDB.UpdateTime (replaceAll v item)).ID = v.ID :=
          (UpdateTime_fields (replaceAll v item)).1
        have hwSKU : (MockDB.UpdateTime (replaceAll v item)).SKU = item.SKU :=
          (UpdateTime_fields (replaceAll v item)).2.1
        by_cases hid : id = id0
        · subst hid
          rw [mlookup_minsert_self] at h
          injection h with h
          subst h
          exact ⟨hwID.trans hvID, mlookup_minsert_self _ _ _⟩
        · rw [mlookup_minsert_ne _ _ _ _ hid] at h
          obtain ⟨h1, h2⟩ := hI id it h
          refine ⟨h1, ?_⟩
          have hne1 : it.SKU ≠ item.SKU := by
            intro hc
            rw [hc] at h2
            rw [h2] at hdup'
            simp at hdup'
          have hne2 : it.SKU ≠ v.SKU := by
            intro hc
            rw [hc] at h2
            rw [hvSKU] at h2
            injection h2 with h2
            exact hid (by rw [← h1, ← h2, hvID])
          rw [mlookup_minsert_ne _ _ _ _ (hwSKU ▸ hne1)]
          rw [mlookup_merase_ne _ _ _ hne2]
          exact h2

theorem IdIndexInv_delete (db : MockDB) (id0 : String)
    (hI : IdIndexInv db) : IdIndexInv (db.DeleteItem id0).db := by
  cases hv : mlookup db.dbByID id0 with
  | none =>
    rw [DeleteItem_notfound db id0 hv]
    exact hI
  | some v =>
    obtain ⟨hvID, hvSKU⟩ := hI id0 v hv
    rw [DeleteItem_ok db id0 v hv]
    intro id it h
    by_cases hid : id = id0
    · subst hid
      rw [mlookup_merase_self] at h
      cases h
    · rw [mlookup_merase_ne _ _ _ hid] at h
      obtain ⟨h1, h2⟩ := hI id it h
      refine ⟨h1, ?_⟩
      have hne : it.SKU ≠ v.SKU := by
        intro hc
        rw [hc] at h2
        rw [hvSKU] at h2
        injection h2 with h2
        exact hid (by rw [← h1, ← h2, hvID])
      rw [mlookup_merase_ne _ _ _ hne]
      exact h2

/-- Every reachable state of the in-memory store satisfies the id-index
invariant. -/
theorem reachable_IdIndexInv {db : MockDB} (h : Reachable db) : IdIndexInv db := by
  induction h with
  | empty => exact IdIndexInv_empty
  | create db item nid _ ih => exact IdIndexInv_create db item nid ih
  | update db id item _ ih => exact IdIndexInv_update db id item ih
  | delete db id _ ih => exact IdIndexInv_delete db id ih

/-! ## Concrete fixtures (mirroring the shapes used in `src/db/db_test.go`) -/

def itemA : Item :=
  { ID := "", SKU := "AAAAAAAA", Name := "Thing1", Description := "",
    PriceInCAD := none, Quantity := some 3, DateAdded := none, LastUpdated := none }

def itemB : Item :=
  { ID := "", SKU := "BBBBBBBB", Name := "Thing2", Description := "",
    PriceInCAD := none, Quantity := some 0, DateAdded := none, LastUpdated := none }

/-- An item that arrives already carrying the identifier `nidA` — the
JSON `id` field is client-writable and `ValidateItem` never checks it. -/
def itemBPresetID : Item :=
  { itemB with ID := "00000000000000000001" }

def nidA : String := "00000000000000000001"
def nidB : String := "00000000000000000002"

def itemAStored : Item := (NewMockDB.CreateItem itemA nidA).item

/-- Two ordinary creates: a lockstep two-item store. -/
def twoDB : MockDB := ((NewMockDB.CreateItem itemA nidA).db.CreateItem itemB nidB).db

def itemBStored : Item := ((NewMockDB.CreateItem itemA nidA).db.CreateItem itemB nidB).item

/-- Create `itemA`, then create an item whose preset identifier collides
with the one just assigned to `itemA`: the id index entry is overwritten
while `itemA`'s sku entry survives. -/
def collideDB : MockDB :=
  ((NewMockDB.CreateItem itemA nidA).db.CreateItem itemBPresetID nidB).db

/-! ## C1 — sku uniqueness across reachable states -/

/-- C1 (amended): for every state of the in-memory store reachable from
the empty store by any sequence of create, update and delete operations,
no two stored items with distinct identifiers have equal sku values. (The
claim's parenthetical "equivalently, the two indices stay in lockstep" is
refuted by `mock_sku_unique_lockstep_cex`.) -/
theorem mock_store_sku_unique (db : MockDB) (hdb : Reachable db)
    (id1 id2 : String) (it1 it2 : Item)
    (h1 : mlookup db.dbByID id1 = some it1) (h2 : mlookup db.dbByID id2 = some it2)
    (hne : id1 ≠ id2) : it1.SKU ≠ it2.SKU := by
  have hI := reachable_IdIndexInv hdb
  obtain ⟨e1, s1⟩ := hI id1 it1 h1
  obtain ⟨e2, s2⟩ := hI id2 it2 h2
  intro hc
  rw [hc] at s1
  rw [s2] at s1
  injection s1 with s1
  exact hne (by rw [← e1, ← s1, e2])

theorem mock_store_sku_unique_witness : itemAStored.SKU ≠ itemBStored.SKU :=
  mock_store_sku_unique twoDB
    (Reachable.create _ _ _ (Reachable.create _ _ _ Reachable.empty))
    nidA nidB itemAStored itemBStored (by decide) (by decide) (by decide)

/-- C1 counterexample: a reachable state (two creates, the second
carrying a preset identifier that collides with the first's) in which the
stored item `itemAStored` appears in the sku index but in neither entry
of the id index — the two indices are not in lockstep, so the claim's
"each live item appearing exactly once in each" fails. -/
theorem mock_sku_unique_lockstep_cex :
    Reachable collideDB ∧
    mlookup collideDB.dbBySKU "AAAAAAAA" = some itemAStored ∧
    (∀ p ∈ collideDB.dbByID, p.2 ≠ itemAStored) :=
  ⟨Reachable.create _ _ _ (Reachable.create _ _ _ Reachable.empty),
   by decide, by decide⟩

/-! ## C9 — no silent failures (refuted for `SQLDB.DeleteItem`) -/

/-- C9 (code bug): when the underlying `Exec` of the relational delete
fails — or when `RowsAffected` fails — `SQLDB.DeleteItem` nevertheless
returns the success status 204 No Content with a nil error: the failure
is swallowed, contradicting the documented contract and the spec's
"no operation fails silently". -/
theorem sqldb_delete_silent_failure :
    SQLDB.DeleteItem (Except.error "dial tcp: connection refused") "00000000000000000001" =
      (StatusNoContent, none) ∧
    SQLDB.DeleteItem (Except.ok ⟨Except.error "driver: bad connection"⟩) "00000000000000000001" =
      (StatusNoContent, none) :=
  ⟨rfl, rfl⟩

/-! ## C10 — the in-memory store performs no field-format validation -/

/-- An item the validator rejects: 1-byte sku and empty name. -/
def invalidItem : Item :=
  { ID := "", SKU := "x", Name := "", Description := "",
    PriceInCAD := none, Quantity := some 0, DateAdded := none, LastUpdated := none }

/-- C10: the in-memory store checks nothing but sku uniqueness on create.
An item with a 1-byte sku and an empty name — rejected by the validator —
is accepted and stored as-is when its sku key is free; and in general
create's outcome depends only on whether the sku is already present. -/
theorem mock_create_no_field_validation :
    ((SKU.isValid invalidItem.SKU).2 ≠ none ∧ (Item.ValidateItem invalidItem).2.2 ≠ none) ∧
    ((NewMockDB.CreateItem invalidItem nidA).code = StatusCreated ∧
     (NewMockDB.CreateItem invalidItem nidA).err = none ∧
     mlookup (NewMockDB.CreateItem invalidItem nidA).db.dbBySKU "x" =
       some (NewMockDB.CreateItem invalidItem nidA).item ∧
     (NewMockDB.CreateItem invalidItem nidA).item.SKU = "x" ∧
     (NewMockDB.CreateItem invalidItem nidA).item.Name = "") ∧
    (∀ db : MockDB, ∀ x : Item, ∀ nid : String,
      ((db.CreateItem x nid).code = StatusConflict ↔
        (mlookup db.dbBySKU x.SKU).isSome = true) ∧
      ((db.CreateItem x nid).code = StatusCreated ↔
        (mlookup db.dbBySKU x.SKU).isSome = false)) := by
  refine ⟨by decide, by decide, ?_⟩
  intro db x nid
  by_cases h : (mlookup db.dbBySKU x.SKU).isSome = true
  · rw [CreateItem_conflict db x nid h]
    simp [h, StatusConflict, StatusCreated]
  · have h' : (mlookup db.dbBySKU x.SKU).isSome = false := by simpa using h
    rw [CreateItem_ok db x nid h']
    simp [h', StatusConflict, StatusCreated]

theorem mock_create_no_field_validation_witness :
    (NewMockDB.CreateItem itemB nidB).code = StatusCreated :=
  ((mock_create_no_field_validation).2.2 NewMockDB itemB nidB).2.mpr (by decide)

/-! ## C2 — exact DuplicateSKU conditions, and no mutation on conflict -/

/-- C2: on a lockstep store, create fails with 409 Conflict exactly when
some stored item already has the candidate's sku; update of the item
stored under `id` fails with 409 exactly when the new sku differs from
the stored one and some *other* stored item holds it (re-submitting the
current sku never conflicts); and a conflict leaves the store untouched. -/
theorem duplicate_sku_detection (db : MockDB) (x y v : Item) (nid id : String)
    (hL : Lockstep db) (hv : mlookup db.dbByID id = some v) :
    (((db.CreateItem x nid).code = StatusConflict ↔
        ∃ w, mlookup db.dbBySKU x.SKU = some w) ∧
     ((db.CreateItem x nid).code = StatusConflict → (db.CreateItem x nid).db = db)) ∧
    (((db.UpdateItem id y).code = StatusConflict ↔
        (y.SKU ≠ v.SKU ∧ ∃ w, mlookup db.dbBySKU y.SKU = some w ∧ w ≠ v)) ∧
     (y.SKU = v.SKU → (db.UpdateItem id y).code ≠ StatusConflict) ∧
     ((db.UpdateItem id y).code = StatusConflict → (db.UpdateItem id y).db = db)) := by
  constructor
  · by_cases h : (mlookup db.dbBySKU x.SKU).isSome = true
    · rw [CreateItem_conflict db x nid h]
      exact ⟨by simpa [Option.isSome_iff_exists] using h, fun _ => rfl⟩
    · have h' : (mlookup db.dbBySKU x.SKU).isSome = false := by simpa using h
      rw [CreateItem_ok db x nid h']
      constructor
      · simp only [StatusCreated, StatusConflict]
        constructor
        · intro hc; exact absurd hc (by decide)
        · rintro ⟨w, hw⟩
          rw [hw] at h'
          simp at h'
      · intro hc
        exact absurd hc (by simp [StatusCreated, StatusConflict])
  · by_cases hs : v.SKU = y.SKU
    · rw [UpdateItem_same db id y v hv hs]
      refine ⟨?_, fun _ => by simp [StatusNoContent, StatusConflict], ?_⟩
      · simp only [StatusNoContent, StatusConflict]
        constructor
        · intro hc; exact absurd hc (by decide)
        · rintro ⟨hne, _⟩
          exact absurd hs.symm hne
      · intro hc
        exact absurd hc (by simp [StatusNoContent, StatusConflict])
    · by_cases hdup : (mlookup db.dbBySKU y.SKU).isSome = true
      · rw [UpdateItem_conflict db id y v hv hs hdup]
        refine ⟨?_, ?_, fun _ => rfl⟩
        · constructor
          · intro _
            refine ⟨fun hc => hs hc.symm, ?_⟩
            obtain ⟨w, hw⟩ := Option.isSome_iff_exists.mp hdup
            refine ⟨w, hw, fun hc => ?_⟩
            have := (lockstep_bySKU hL hw).1
            rw [hc] at this
            exact hs this
          · intro _; rfl
        · intro hc
          exact absurd hc.symm (fun hcc => hs hcc)
      · have hdup' : (mlookup db.dbBySKU y.SKU).isSome = false := by simpa using hdup
        rw [UpdateItem_newsku db id y v hv hs hdup']
        refine ⟨?_, fun _ => by simp [StatusNoContent, StatusConflict], ?_⟩
        · simp only [StatusNoContent, StatusConflict]
          constructor
          · intro hc; exact absurd hc (by decide)
          · rintro ⟨_, w, hw, _⟩
            rw [hw] at hdup'
            simp at hdup'
        · intro hc
          exact absurd hc (by simp [StatusNoContent, StatusConflict])

theorem duplicate_sku_detection_witness :
    (twoDB.UpdateItem nidA itemA).code ≠ StatusConflict :=
  (duplicate_sku_detection twoDB itemB itemA itemAStored nidB nidA
    (by decide) (by decide)).2.2.1 (by decide)

/-! ## C8 — delete removes exactly the targeted item -/

/-- C8: on a lockstep store, delete of an absent identifier fails with
404 and changes nothing; delete of a stored item succeeds with 204,
after which get on that identifier is 404, the listing contains no item
with that identifier, and every other stored item is untouched (same
id-index lookups, and the same listed items in both directions). -/
theorem delete_semantics (db : MockDB) (id : String) (v : Item)
    (hL : Lockstep db) :
    (mlookup db.dbByID id = none →
      (db.DeleteItem id).code = StatusNotFound ∧
      (db.DeleteItem id).db = db ∧
      (db.DeleteItem id).err ≠ none) ∧
    (mlookup db.dbByID id = some v →
      (db.DeleteItem id).code = StatusNoContent ∧
      ((db.DeleteItem id).db.GetItem id).code = StatusNotFound ∧
      (∀ w ∈ ((db.DeleteItem id).db.GetItems).1, w.ID ≠ id) ∧
      (∀ id2, id2 ≠ id →
        mlookup (db.DeleteItem id).db.dbByID id2 = mlookup db.dbByID id2) ∧
      (∀ w ∈ ((db.DeleteItem id).db.GetItems).1, w ∈ (db.GetItems).1) ∧
      (∀ w ∈ (db.GetItems).1, w.ID ≠ id → w ∈ ((db.DeleteItem id).db.GetItems).1)) := by
  constructor
  · intro h
    rw [DeleteItem_notfound db id h]
    exact ⟨rfl, rfl, by simp⟩
  · intro hv
    obtain ⟨hvID, hvSKU⟩ := lockstep_byID hL hv
    rw [DeleteItem_ok db id v hv]
    refine ⟨rfl, ?_, ?_, ?_, ?_, ?_⟩
    · rw [GetItem_notfound _ id (mlookup_merase_self _ _)]
    · intro w hw hwid
      simp only [MockDB.GetItems, merase, List.mem_map] at hw
      obtain ⟨p, hp, hpw⟩ := hw
      obtain ⟨hpmem, hpkey⟩ := List.mem_filter.mp hp
      obtain ⟨hps, hpid⟩ := hL.2 p hpmem
      rw [hpw] at hpid hps
      rw [hwid] at hpid
      rw [hv] at hpid
      injection hpid with hh
      rw [← hh] at hps
      rw [hps] at hpkey
      simp at hpkey
    · intro id2 hid2
      exact mlookup_merase_ne _ _ _ hid2
    · intro w hw
      simp only [MockDB.GetItems, merase, List.mem_map] at hw ⊢
      obtain ⟨p, hp, hpw⟩ := hw
      exact ⟨p, (List.mem_filter.mp hp).1, hpw⟩
    · intro w hw hwid
      simp only [MockDB.GetItems, List.mem_map] at hw
      obtain ⟨p, hpmem, hpw⟩ := hw
      have hkey : ¬ p.1 = v.SKU := by
        intro hk
        obtain ⟨hps, hpid⟩ := hL.2 p hpmem
        obtain ⟨_, hws⟩ := hL.1 (p.2.ID, p.2) (mem_of_mlookup hpid)
        rw [hps, hk] at hws
        rw [hvSKU] at hws
        injection hws with hws
        have hvp : v = p.2 := hws
        exact hwid (by rw [← hpw, ← hvp, hvID])
      simp only [MockDB.GetItems, merase, List.mem_map]
      exact ⟨p, List.mem_filter.mpr ⟨hpmem, by simpa using hkey⟩, hpw⟩

theorem delete_semantics_witness :
    (twoDB.DeleteItem nidA).code = StatusNoContent :=
  ((delete_semantics twoDB nidA itemAStored (by decide)).2 (by decide)).1

/-! ## C4 — update is a full replace with stable identity fields -/

theorem UpdateTime_some (item : Item) (t : Nat) (h : item.LastUpdated = some t) :
    MockDB.UpdateTime item = { item with LastUpdated := some (t + 1) } := by
  unfold MockDB.UpdateTime
  rw [h]

/-- An update candidate for `itemA`: same sku, new name and quantity,
price still absent. -/
def itemAUpdate : Item :=
  { ID := "", SKU := "AAAAAAAA", Name := "Thing1 v2", Description := "",
    PriceInCAD := none, Quantity := some 5, DateAdded := none, LastUpdated := none }

/-- C4: on a lockstep store, a successful `update(id, y)` fully replaces
the mutable fields — a subsequent get returns `y`'s sku, name,
description, price (absent stays absent) and quantity — while the
identifier and `date_added` are unchanged and `last_updated` is strictly
later than it was before the update. -/
theorem update_full_replace (db : MockDB) (id : String) (v y : Item) (t : Nat)
    (hL : Lockstep db) (hv : mlookup db.dbByID id = some v)
    (ht : v.LastUpdated = some t)
    (hok : (db.UpdateItem id y).code = StatusNoContent) :
    ((db.UpdateItem id y).db.GetItem id).code = StatusOK ∧
    ((db.UpdateItem id y).db.GetItem id).item.SKU = y.SKU ∧
    ((db.UpdateItem id y).db.GetItem id).item.Name = y.Name ∧
    ((db.UpdateItem id y).db.GetItem id).item.Description = y.Description ∧
    ((db.UpdateItem id y).db.GetItem id).item.PriceInCAD = y.PriceInCAD ∧
    ((db.UpdateItem id y).db.GetItem id).item.Quantity = y.Quantity ∧
    ((db.UpdateItem id y).db.GetItem id).item.ID = id ∧
    ((db.UpdateItem id y).db.GetItem id).item.DateAdded = v.DateAdded ∧
    ((db.UpdateItem id y).db.GetItem id).item.LastUpdated = some (t + 1) ∧
    t < t + 1 := by
  have hvID : v.ID = id := (lockstep_byID hL hv).1
  by_cases hs : v.SKU = y.SKU
  · rw [UpdateItem_same db id y v hv hs]
    have htr : (replaceFields v y).LastUpdated = some t := ht
    rw [UpdateTime_some _ _ htr]
    rw [GetItem_ok _ id _ (mlookup_minsert_self _ _ _)]
    exact ⟨rfl, hs, rfl, rfl, rfl, rfl, hvID, rfl, rfl, Nat.lt_succ_self t⟩
  · have hdup' : (mlookup db.dbBySKU y.SKU).isSome = false := by
      by_contra hcon
      have hdup : (mlookup db.dbBySKU y.SKU).isSome = true := by
        rw [Bool.not_eq_false] at hcon
        exact hcon
      rw [UpdateItem_conflict db id y v hv hs hdup] at hok
      exact absurd hok (by simp [StatusConflict, StatusNoContent])
    rw [UpdateItem_newsku db id y v hv hs hdup']
    have htr : (replaceAll v y).LastUpdated = some t := ht
    rw [UpdateTime_some _ _ htr]
    rw [GetItem_ok _ id _ (mlookup_minsert_self _ _ _)]
    exact ⟨rfl, rfl, rfl, rfl, rfl, rfl, hvID, rfl, rfl, Nat.lt_succ_self t⟩

/-- A priced fixture: the stored item carries a price, the update omits
it. -/
def itemP : Item :=
  { ID := "", SKU := "PPPPPPPP", Name := "Pricey", Description := "",
    PriceInCAD := some 2000, Quantity := some 1, DateAdded := none, LastUpdated := none }

def priceDB : MockDB := (NewMockDB.CreateItem itemP nidA).db

def itemPStored : Item := (NewMockDB.CreateItem itemP nidA).item

theorem update_full_replace_witness :
    ((priceDB.UpdateItem nidA itemAUpdate).db.GetItem nidA).item.PriceInCAD = none :=
  (update_full_replace priceDB nidA itemPStored itemAUpdate 0
    (by decide) (by decide) (by decide) (by decide)).2.2.2.2.1

/-! ## Branch equations for `SetID` and `ValidateItem` -/

theorem SetID_present (x : Item) (nid : String) (h : x.IdIsPresent = true) :
    (x.SetID nid).1 = x := by
  unfold Item.SetID
  rw [if_neg (by simp [h])]

theorem SetID_absent (x : Item) (nid : String) (h : x.IdIsPresent = false)
    (hn : (ID.isValid nid).2 = none) :
    (x.SetID nid).1 = { x with ID := nid } := by
  unfold Item.SetID
  rw [if_pos h, hn]

theorem skuIsValid_code (s e : String) (h : (SKU.isValid s).2 = some e) :
    (SKU.isValid s).1 = StatusBadRequest := by
  unfold SKU.isValid at h ⊢
  by_cases h1 : (golen s < SKU_MIN_LEN || golen s > SKU_MAX_LEN) = true
  · rw [if_pos h1]
  · rw [if_neg h1] at h ⊢
    by_cases h2 : (s.data.all fun c => goIsLetter c || goIsDigit c || c == '-' || c == '_') = true
    · rw [if_pos h2] at h
      cases h
    · rw [if_neg h2]

theorem validateItem_sku_fail (x : Item) (e : String)
    (h : (SKU.isValid x.SKU).2 = some e) :
    x.ValidateItem = (x, StatusBadRequest, some e) := by
  unfold Item.ValidateItem Item.ValidateSKU
  rw [h, skuIsValid_code x.SKU e h]

theorem validateItem_name_fail (x : Item)
    (h1 : (SKU.isValid x.SKU).2 = none)
    (hn : (golen (TrimSpace x.Name) == 0) = true) :
    x.ValidateItem = ({ x with Name := TrimSpace x.Name }, StatusBadRequest,
      some "name cannot be whitespace or empty") := by
  unfold Item.ValidateItem Item.ValidateSKU Item.ValidateName
  rw [h1]
  dsimp only
  rw [if_pos hn]

theorem validateItem_price_fail (x : Item) (p : Int)
    (h1 : (SKU.isValid x.SKU).2 = none)
    (hn : (golen (TrimSpace x.Name) == 0) = false)
    (hp : x.PriceInCAD = some p) (hneg : p < 0) :
    x.ValidateItem =
      ({ x with Name := TrimSpace x.Name, Description := TrimSpace x.Description },
       StatusBadRequest, some "price_CAD cannot be negative") := by
  unfold Item.ValidateItem Item.ValidateSKU Item.ValidateName
    Item.ValidateDescription Item.ValidatePrice
  rw [h1]
  dsimp only
  rw [if_neg (by simp [hn])]
  dsimp only
  rw [hp]
  dsimp only
  rw [if_pos hneg]

theorem validateItem_quantity_fail (x : Item) (q : Int)
    (h1 : (SKU.isValid x.SKU).2 = none)
    (hn : (golen (TrimSpace x.Name) == 0) = false)
    (hp : ∀ p, x.PriceInCAD = some p → ¬ p < 0)
    (hq : x.Quantity = some q) (hneg : q < 0) :
    x.ValidateItem =
      ({ x with Name := TrimSpace x.Name, Description := TrimSpace x.Description },
       StatusBadRequest, some "quantity cannot be negative") := by
  unfold Item.ValidateItem Item.ValidateSKU Item.ValidateName
    Item.ValidateDescription Item.ValidatePrice Item.ValidateQuantity
  rw [h1]
  dsimp only
  rw [if_neg (by simp [hn])]
  dsimp only
  cases hpc : x.PriceInCAD with
  | some p =>
    dsimp only
    rw [if_neg (hp p hpc)]
    dsimp only
    rw [hq]
    dsimp only
    rw [if_pos hneg]
  | none =>
    dsimp only
    rw [hq]
    dsimp only
    rw [if_pos hneg]

theorem validateItem_ok_some (x : Item) (q : Int)
    (h1 : (SKU.isValid x.SKU).2 = none)
    (hn : (golen (TrimSpace x.Name) == 0) = false)
    (hp : ∀ p, x.PriceInCAD = some p → ¬ p < 0)
    (hq : x.Quantity = some q) (hqn : ¬ q < 0) :
    x.ValidateItem =
      ({ x with Name := TrimSpace x.Name, Description := TrimSpace x.Description },
       0, none) := by
  unfold Item.ValidateItem Item.ValidateSKU Item.ValidateName
    Item.ValidateDescription Item.ValidatePrice Item.ValidateQuantity
  rw [h1]
  dsimp only
  rw [if_neg (by simp [hn])]
  dsimp only
  cases hpc : x.PriceInCAD with
  | some p =>
    dsimp only
    rw [if_neg (hp p hpc)]
    dsimp only
    rw [hq]
    dsimp only
    rw [if_neg hqn]
  | none =>
    dsimp only
    rw [hq]
    dsimp only
    rw [if_neg hqn]

theorem validateItem_ok_none (x : Item)
    (h1 : (SKU.isValid x.SKU).2 = none)
    (hn : (golen (TrimSpace x.Name) == 0) = false)
    (hp : ∀ p, x.PriceInCAD = some p → ¬ p < 0)
    (hq : x.Quantity = none) :
    x.ValidateItem =
      ({ x with Name := TrimSpace x.Name, Description := TrimSpace x.Description,
                Quantity := some 0 },
       0, none) := by
  unfold Item.ValidateItem Item.ValidateSKU Item.ValidateName
    Item.ValidateDescription Item.ValidatePrice Item.ValidateQuantity
  rw [h1]
  dsimp only
  rw [if_neg (by simp [hn])]
  dsimp only
  cases hpc : x.PriceInCAD with
  | some p =>
    dsimp only
    rw [if_neg (hp p hpc)]
    dsimp only
    rw [hq]
  | none =>
    dsimp only
    rw [hq]

/-! ## C5 — identifier handling on create -/

/-- An item carrying a non-empty but malformed identifier (3 bytes). -/
def itemMalformedID : Item :=
  { itemB with ID := "abc" }

/-- C5 counterexample: create with a non-empty malformed identifier does
*not* fail — `CreateItem` discards `SetID`'s error, regenerates the
identifier and succeeds. -/
theorem create_id_policy_cex :
    itemMalformedID.ID ≠ "" ∧
    (ID.isValid itemMalformedID.ID).2 ≠ none ∧
    (NewMockDB.CreateItem itemMalformedID nidB).code = StatusCreated ∧
    (NewMockDB.CreateItem itemMalformedID nidB).err = none ∧
    (NewMockDB.CreateItem itemMalformedID nidB).item.ID = nidB := by
  decide

/-- C5 (amended): create keeps any identifier that is already present
(20 bytes long — valid or not) and never overwrites it; an identifier of
any other length, including a non-empty malformed one, is silently
regenerated to the freshly minted id and the create succeeds (it is never
rejected for a malformed identifier). -/
theorem create_id_policy (db : MockDB) (x : Item) (nid : String) :
    (x.IdIsPresent = true → (db.CreateItem x nid).item.ID = x.ID) ∧
    (x.IdIsPresent = false → (ID.isValid nid).2 = none →
      mlookup db.dbBySKU x.SKU = none →
      (db.CreateItem x nid).code = StatusCreated ∧
      (db.CreateItem x nid).item.ID = nid ∧
      mlookup (db.CreateItem x nid).db.dbByID nid = some (db.CreateItem x nid).item) := by
  constructor
  · intro hp
    by_cases hsku : (mlookup db.dbBySKU x.SKU).isSome = true
    · rw [CreateItem_conflict db x nid hsku]
    · have hsku' : (mlookup db.dbBySKU x.SKU).isSome = false := by simpa using hsku
      rw [CreateItem_ok db x nid hsku']
      show (completeItem x nid).ID = x.ID
      unfold completeItem
      rw [SetID_present x nid hp]
  · intro hp hn hsku
    have hsku' : (mlookup db.dbBySKU x.SKU).isSome = false := by
      rw [hsku]; rfl
    rw [CreateItem_ok db x nid hsku']
    have hci : (completeItem x nid).ID = nid := by
      unfold completeItem
      rw [SetID_absent x nid hp hn]
    refine ⟨rfl, hci, ?_⟩
    rw [hci]
    exact mlookup_minsert_self _ _ _

theorem create_id_policy_witness :
    (NewMockDB.CreateItem itemA nidA).code = StatusCreated :=
  ((create_id_policy NewMockDB itemA nidA).2 (by decide) (by decide) (by decide)).1

/-! ## C3 — create/get round-trip for validated items -/

/-- A validator-accepted item whose preset 20-byte identifier is made of
characters outside `[a-v0-9]`. -/
def itemBangID : Item :=
  { ID := "!!!!!!!!!!!!!!!!!!!!", SKU := "DDDDDDDD", Name := "Bang", Description := "",
    PriceInCAD := none, Quantity := some 1, DateAdded := none, LastUpdated := none }

/-- C3 counterexample: a validated item (validation never inspects the
identifier) carrying a malformed 20-byte identifier, with a fresh sku,
is created successfully — and the assigned identifier is the malformed
preset one, not a 20-character `[a-v0-9]` string. -/
theorem create_get_roundtrip_cex :
    (Item.ValidateItem itemBangID).2.2 = none ∧
    mlookup NewMockDB.dbBySKU (Item.ValidateItem itemBangID).1.SKU = none ∧
    (NewMockDB.CreateItem (Item.ValidateItem itemBangID).1 nidB).code = StatusCreated ∧
    (NewMockDB.CreateItem (Item.ValidateItem itemBangID).1 nidB).item.ID =
      "!!!!!!!!!!!!!!!!!!!!" ∧
    (ID.isValid "!!!!!!!!!!!!!!!!!!!!").2 ≠ none := by
  decide

/-- C3 (amended): for every candidate that passes validation, whose sku
is not yet stored, and whose identifier field is either not yet present
or well-formed (the amendment forced by `create_get_roundtrip_cex`),
create succeeds and a get on the assigned identifier returns an item
equal to the validated candidate in every mutable field, with
`date_added = last_updated`; a quantity absent before validation is
stored as 0; and the assigned identifier is a well-formed 20-character
`[a-v0-9]` string (the freshly minted id is well-formed, matching the
xid scheme). -/
theorem create_get_roundtrip (db : MockDB) (x0 : Item) (nid : String)
    (hval : (x0.ValidateItem).2.2 = none)
    (hsku : mlookup db.dbBySKU (x0.ValidateItem).1.SKU = none)
    (hid : (x0.ValidateItem).1.IdIsPresent = false ∨
           (ID.isValid (x0.ValidateItem).1.ID).2 = none)
    (hnid : (ID.isValid nid).2 = none) :
    (db.CreateItem (x0.ValidateItem).1 nid).code = StatusCreated ∧
    ((db.CreateItem (x0.ValidateItem).1 nid).db.GetItem
        (db.CreateItem (x0.ValidateItem).1 nid).item.ID).code = StatusOK ∧
    ((db.CreateItem (x0.ValidateItem).1 nid).db.GetItem
        (db.CreateItem (x0.ValidateItem).1 nid).item.ID).item =
      (db.CreateItem (x0.ValidateItem).1 nid).item ∧
    (db.CreateItem (x0.ValidateItem).1 nid).item.SKU = (x0.ValidateItem).1.SKU ∧
    (db.CreateItem (x0.ValidateItem).1 nid).item.Name = (x0.ValidateItem).1.Name ∧
    (db.CreateItem (x0.ValidateItem).1 nid).item.Description =
      (x0.ValidateItem).1.Description ∧
    (db.CreateItem (x0.ValidateItem).1 nid).item.PriceInCAD =
      (x0.ValidateItem).1.PriceInCAD ∧
    (db.CreateItem (x0.ValidateItem).1 nid).item.Quantity =
      (x0.ValidateItem).1.Quantity ∧
    (db.CreateItem (x0.ValidateItem).1 nid).item.DateAdded =
      (db.CreateItem (x0.ValidateItem).1 nid).item.LastUpdated ∧
    (x0.Quantity = none →
      (db.CreateItem (x0.ValidateItem).1 nid).item.Quantity = some 0) ∧
    (ID.isValid (db.CreateItem (x0.ValidateItem).1 nid).item.ID).2 = none := by
  have hsku' : (mlookup db.dbBySKU (x0.ValidateItem).1.SKU).isSome = false := by
    rw [hsku]; rfl
  rw [CreateItem_ok db (x0.ValidateItem).1 nid hsku']
  have hfields := completeItem_fields (x0.ValidateItem).1 nid
  refine ⟨rfl, ?_, ?_, hfields.1, hfields.2.1, hfields.2.2.1, hfields.2.2.2.1,
    hfields.2.2.2.2.1, ?_, ?_, ?_⟩
  · rw [GetItem_ok _ _ _ (mlookup_minsert_self _ _ _)]
  · rw [GetItem_ok _ _ _ (mlookup_minsert_self _ _ _)]
  · rw [hfields.2.2.2.2.2.1, hfields.2.2.2.2.2.2]
  · intro hq0
    rw [hfields.2.2.2.2.1]
    -- the validated candidate's quantity is the default 0 filled in by
    -- ValidateQuantity when the raw candidate had none
    cases hskuv : (SKU.isValid x0.SKU).2 with
    | some e =>
      rw [validateItem_sku_fail x0 e hskuv] at hval
      cases hval
    | none =>
      cases hnm : (golen (TrimSpace x0.Name) == 0) with
      | true =>
        rw [validateItem_name_fail x0 hskuv hnm] at hval
        cases hval
      | false =>
        have hpok : ∀ p, x0.PriceInCAD = some p → ¬ p < 0 := by
          intro p hp hneg
          rw [validateItem_price_fail x0 p hskuv hnm hp hneg] at hval
          cases hval
        rw [validateItem_ok_none x0 hskuv hnm hpok hq0]
  · unfold completeItem
    rcases hid with h | h
    · rw [SetID_absent _ nid h hnid]
      exact hnid
    · rcases SetID_cases (x0.ValidateItem).1 nid with hc | hc
      · rw [hc]
        exact h
      · rw [hc]
        exact hnid

theorem create_get_roundtrip_witness :
    (NewMockDB.CreateItem (Item.ValidateItem itemA).1 nidA).code = StatusCreated :=
  (create_get_roundtrip NewMockDB itemA nidA (by decide) (by decide)
    (Or.inl (by decide)) (by decide)).1

/-! ## C6 — the sku format check -/

theorem golen_ascii (l : List Char) (h : ∀ c ∈ l, c.val < 0x80) :
    (l.map utf8Bytes).sum = l.length := by
  induction l with
  | nil => rfl
  | cons c l ih =>
    have hc : utf8Bytes c = 1 := by
      unfold utf8Bytes
      rw [if_pos (h c (List.mem_cons_self c l))]
    simp only [List.map_cons, List.sum_cons, hc, List.length_cons,
      ih (fun d hd => h d (List.mem_cons_of_mem c hd))]
    omega

/-- On ASCII code points the Go character class "letter or digit or `-`
or `_`" is exactly `[A-Za-z0-9_-]` (the ranges `0x41`–`0x5A`, `0x61`–`0x7A`
and `0x30`–`0x39` are `A`–`Z`, `a`–`z` and `0`–`9`). -/
theorem goClass_ascii (c : Char) (h : c.val < 0x80) :
    (goIsLetter c || goIsDigit c || c == '-' || c == '_') = true ↔
      ((0x41 ≤ c.val ∧ c.val ≤ 0x5A) ∨ (0x61 ≤ c.val ∧ c.val ≤ 0x7A) ∨
       (0x30 ≤ c.val ∧ c.val ≤ 0x39) ∨ c = '-' ∨ c = '_') := by
  have hAA : ¬ c.val = 0xAA := fun hc => absurd h (by rw [hc]; decide)
  have hB5 : ¬ c.val = 0xB5 := fun hc => absurd h (by rw [hc]; decide)
  have hBA : ¬ c.val = 0xBA := fun hc => absurd h (by rw [hc]; decide)
  have hC0 : ¬ (0xC0 : UInt32) ≤ c.val :=
    fun hc => absurd h (UInt32.not_lt.mpr (UInt32.le_trans (by decide) hc))
  have hD8 : ¬ (0xD8 : UInt32) ≤ c.val :=
    fun hc => absurd h (UInt32.not_lt.mpr (UInt32.le_trans (by decide) hc))
  have hF8 : ¬ (0xF8 : UInt32) ≤ c.val :=
    fun hc => absurd h (UInt32.not_lt.mpr (UInt32.le_trans (by decide) hc))
  unfold goIsLetter goIsDigit
  constructor
  · intro hcls
    simp only [Bool.or_eq_true, Bool.and_eq_true, decide_eq_true_eq, beq_iff_eq] at hcls
    rcases hcls with (((((((((hAZ | haz) | he1) | he2) | he3) | hr1) | hr2) | hr3) | hD) | hHy) | hUn
    · exact Or.inl hAZ
    · exact Or.inr (Or.inl haz)
    · exact absurd he1 hAA
    · exact absurd he2 hB5
    · exact absurd he3 hBA
    · exact absurd hr1.1 hC0
    · exact absurd hr2.1 hD8
    · exact absurd hr3.1 hF8
    · exact Or.inr (Or.inr (Or.inl hD))
    · exact Or.inr (Or.inr (Or.inr (Or.inl hHy)))
    · exact Or.inr (Or.inr (Or.inr (Or.inr hUn)))
  · rintro (hAZ | haz | hD | hHy | hUn)
    · simp [decide_eq_true hAZ.1, decide_eq_true hAZ.2]
    · simp [decide_eq_true haz.1, decide_eq_true haz.2]
    · simp [decide_eq_true hD.1, decide_eq_true hD.2]
    · simp [hHy]
    · simp [hUn]

/-- C6 counterexample: `"éé"` is two characters — shorter than the
claimed minimum of 4 — and entirely outside the ASCII alphabet, yet the
sku check accepts it (Go counts its UTF-8 bytes, 4, and
`unicode.IsLetter` accepts `é`); likewise the four-character `"éééé"` is
outside the ASCII `[A-Za-z0-9_-]` alphabet yet accepted. -/
theorem validate_sku_cex :
    (SKU.isValid "éé").2 = none ∧
    ("éé" : String).data.length = 2 ∧
    (SKU.isValid "éééé").2 = none ∧
    ("éééé" : String).data.length = 4 ∧
    (∀ c ∈ ("éééé" : String).data,
      ¬((0x41 ≤ c.val ∧ c.val ≤ 0x5A) ∨ (0x61 ≤ c.val ∧ c.val ≤ 0x7A) ∨
        (0x30 ≤ c.val ∧ c.val ≤ 0x39) ∨ c = '-' ∨ c = '_')) := by
  decide

/-- C6 (amended): restricted to ASCII strings the claim holds — the sku
check fails exactly when the length is outside `[4, 12]` or some
character is outside `[A-Za-z0-9_-]`. (In general the source measures
length in UTF-8 bytes and accepts any Unicode letter or digit, see
`validate_sku_cex`.) -/
theorem validate_sku_spec (s : String) (hascii : ∀ c ∈ s.data, c.val < 0x80) :
    (SKU.isValid s).2 ≠ none ↔
      (s.data.length < SKU_MIN_LEN ∨ s.data.length > SKU_MAX_LEN ∨
       ∃ c ∈ s.data,
         ¬((0x41 ≤ c.val ∧ c.val ≤ 0x5A) ∨ (0x61 ≤ c.val ∧ c.val ≤ 0x7A) ∨
           (0x30 ≤ c.val ∧ c.val ≤ 0x39) ∨ c = '-' ∨ c = '_')) := by
  have hlen : golen s = s.data.length := golen_ascii s.data hascii
  unfold SKU.isValid
  by_cases h1 : (golen s < SKU_MIN_LEN || golen s > SKU_MAX_LEN) = true
  · rw [if_pos h1]
    simp only [Bool.or_eq_true, decide_eq_true_eq, hlen] at h1
    constructor
    · intro _
      rcases h1 with h | h
      · exact Or.inl h
      · exact Or.inr (Or.inl h)
    · intro _
      simp
  · rw [if_neg h1]
    simp only [Bool.or_eq_true, decide_eq_true_eq, hlen, not_or, not_lt] at h1
    obtain ⟨hmin, hmax⟩ := h1
    by_cases h2 : (s.data.all fun c => goIsLetter c || goIsDigit c || c == '-' || c == '_') = true
    · rw [if_pos h2]
      rw [List.all_eq_true] at h2
      constructor
      · intro hc
        exact absurd rfl hc
      · rintro (h | h | ⟨c, hcmem, hcbad⟩)
        · omega
        · omega
        · exact absurd ((goClass_ascii c (hascii c hcmem)).mp (h2 c hcmem)) hcbad
    · rw [if_neg h2]
      constructor
      · intro _
        refine Or.inr (Or.inr ?_)
        rw [List.all_eq_true] at h2
        push_neg at h2
        obtain ⟨c, hcmem, hcbad⟩ := h2
        refine ⟨c, hcmem, fun hcls => ?_⟩
        exact hcbad ((goClass_ascii c (hascii c hcmem)).mpr hcls)
      · intro _
        simp

theorem validate_sku_spec_witness :
    (SKU.isValid "x").2 ≠ none ∧ (SKU.isValid "AAAAAAAA").2 = none := by
  constructor
  · exact (validate_sku_spec "x" (by decide)).mpr (Or.inl (by decide))
  · by_contra hc
    have := (validate_sku_spec "AAAAAAAA" (by decide)).mp hc
    revert this
    decide

/-! ## C7 — the validation pipeline: order, short-circuit, normalization -/

/-- C7: `ValidateItem` runs sku → name → description → price → quantity
and short-circuits with the first failure's error:

1. a sku failure is returned with the candidate completely untouched
   (no trimming happened yet — sku runs first);
2. a name failure is returned with the name already trimmed but the
   description still untrimmed (name runs second, description third);
3. a price failure is returned with name and description trimmed but the
   quantity not yet defaulted (price runs fourth, quantity fifth);
4. a quantity failure is returned with name and description trimmed;
5. on success the candidate is normalized in place: name and description
   trimmed and an absent quantity filled with 0 (a present one kept);
6. the identifier field is never validated: changing it changes neither
   the returned code/error nor any other field of the result. -/
theorem validate_item_pipeline (x : Item) (i e : String) (p q : Int) :
    ((SKU.isValid x.SKU).2 = some e →
      x.ValidateItem = (x, StatusBadRequest, some e)) ∧
    ((SKU.isValid x.SKU).2 = none → (golen (TrimSpace x.Name) == 0) = true →
      x.ValidateItem = ({ x with Name := TrimSpace x.Name }, StatusBadRequest,
        some "name cannot be whitespace or empty")) ∧
    ((SKU.isValid x.SKU).2 = none → (golen (TrimSpace x.Name) == 0) = false →
      x.PriceInCAD = some p → p < 0 →
      x.ValidateItem =
        ({ x with Name := TrimSpace x.Name, Description := TrimSpace x.Description },
         StatusBadRequest, some "price_CAD cannot be negative")) ∧
    ((SKU.isValid x.SKU).2 = none → (golen (TrimSpace x.Name) == 0) = false →
      (∀ p0, x.PriceInCAD = some p0 → ¬ p0 < 0) → x.Quantity = some q → q < 0 →
      x.ValidateItem =
        ({ x with Name := TrimSpace x.Name, Description := TrimSpace x.Description },
         StatusBadRequest, some "quantity cannot be negative")) ∧
    ((SKU.isValid x.SKU).2 = none → (golen (TrimSpace x.Name) == 0) = false →
      (∀ p0, x.PriceInCAD = some p0 → ¬ p0 < 0) → x.Quantity = some q → ¬ q < 0 →
      x.ValidateItem =
        ({ x with Name := TrimSpace x.Name, Description := TrimSpace x.Description },
         0, none)) ∧
    ((SKU.isValid x.SKU).2 = none → (golen (TrimSpace x.Name) == 0) = false →
      (∀ p0, x.PriceInCAD = some p0 → ¬ p0 < 0) → x.Quantity = none →
      x.ValidateItem =
        ({ x with Name := TrimSpace x.Name, Description := TrimSpace x.Description,
                  Quantity := some 0 },
         0, none)) ∧
    ((({ x with ID := i }).ValidateItem).2 = (x.ValidateItem).2 ∧
     (({ x with ID := i }).ValidateItem).1 = { (x.ValidateItem).1 with ID := i }) := by
  refine ⟨validateItem_sku_fail x e, validateItem_name_fail x,
    fun h1 hn hp hneg => validateItem_price_fail x p h1 hn hp hneg,
    fun h1 hn hp hq hneg => validateItem_quantity_fail x q h1 hn hp hq hneg,
    fun h1 hn hp hq hqn => validateItem_ok_some x q h1 hn hp hq hqn,
    fun h1 hn hp hq => validateItem_ok_none x h1 hn hp hq, ?_⟩
  cases hsku : (SKU.isValid x.SKU).2 with
  | some e0 =>
    rw [validateItem_sku_fail x e0 hsku,
      validateItem_sku_fail { x with ID := i } e0 hsku]
    exact ⟨rfl, rfl⟩
  | none =>
    cases hnm : (golen (TrimSpace x.Name) == 0) with
    | true =>
      rw [validateItem_name_fail x hsku hnm,
        validateItem_name_fail { x with ID := i } hsku hnm]
      exact ⟨rfl, rfl⟩
    | false =>
      rcases Option.eq_none_or_eq_some x.PriceInCAD with hpc | ⟨p0, hpc⟩
      · have hpok : ∀ p1, x.PriceInCAD = some p1 → ¬ p1 < 0 := by
          intro p1 hp1
          rw [hpc] at hp1
          cases hp1
        rcases Option.eq_none_or_eq_some x.Quantity with hqc | ⟨q0, hqc⟩
        · rw [validateItem_ok_none x hsku hnm hpok hqc,
            validateItem_ok_none { x with ID := i } hsku hnm hpok hqc]
          exact ⟨rfl, rfl⟩
        · by_cases hqneg : q0 < 0
          · rw [validateItem_quantity_fail x q0 hsku hnm hpok hqc hqneg,
              validateItem_quantity_fail { x with ID := i } q0 hsku hnm hpok hqc hqneg]
            exact ⟨rfl, rfl⟩
          · rw [validateItem_ok_some x q0 hsku hnm hpok hqc hqneg,
              validateItem_ok_some { x with ID := i } q0 hsku hnm hpok hqc hqneg]
            exact ⟨rfl, rfl⟩
      · by_cases hneg : p0 < 0
        · rw [validateItem_price_fail x p0 hsku hnm hpc hneg,
            validateItem_price_fail { x with ID := i } p0 hsku hnm hpc hneg]
          exact ⟨rfl, rfl⟩
        · have hpok : ∀ p1, x.PriceInCAD = some p1 → ¬ p1 < 0 := by
            intro p1 hp1
            rw [hpc] at hp1
            injection hp1 with hp1
            rw [← hp1]
            exact hneg
          rcases Option.eq_none_or_eq_some x.Quantity with hqc | ⟨q0, hqc⟩
          · rw [validateItem_ok_none x hsku hnm hpok hqc,
              validateItem_ok_none { x with ID := i } hsku hnm hpok hqc]
            exact ⟨rfl, rfl⟩
          · by_cases hqneg : q0 < 0
            · rw [validateItem_quantity_fail x q0 hsku hnm hpok hqc hqneg,
                validateItem_quantity_fail { x with ID := i } q0 hsku hnm hpok hqc hqneg]
              exact ⟨rfl, rfl⟩
            · rw [validateItem_ok_some x q0 hsku hnm hpok hqc hqneg,
                validateItem_ok_some { x with ID := i } q0 hsku hnm hpok hqc hqneg]
              exact ⟨rfl, rfl⟩

theorem validate_item_pipeline_witness :
    Item.ValidateItem invalidItem =
      (invalidItem, StatusBadRequest,
       some "SKU must be between 4 and 12 characters in length") :=
  (validate_item_pipeline invalidItem "zzzzzzzzzzzzzzzzzzzz"
    "SKU must be between 4 and 12 characters in length" 0 0).1 (by decide)

end Shopify
